import Mathlib

/-!
Formal model of `zipline/finance/risk/cumulative.py` (class `RiskMetricsCumulative`
and the module-level `sharpe_ratio` helper).

Modelling conventions:
* Python floats are modelled by real numbers `ℝ`; where the Python code only uses
  field operations on rational inputs we model values by `ℚ` so that the
  definitions stay executable and decidable.
* A pandas `Series` over a fixed index is modelled as an association list
  `List (Ts × Option α)` in index order; a cell holding `none` models a NaN
  ("missing") cell.  Label assignment to a label that is not in the index
  raises `KeyError` in the pandas version this repository pins (pre-enlargement
  `__setitem__`), which the spec documents as a fatal configuration error; we
  model it as an error value.
* Exceptions are modelled by returning `RiskState × Option UpdErr`: the returned
  state reflects exactly the mutations executed before the raise point, matching
  Python's in-place mutation semantics.
-/

namespace Zipline

/-- Timestamps, in minutes (an abstract strictly-increasing integer time axis). -/
abbrev Ts := Nat

/-- `timestamp.replace(hour=0, minute=0)`: truncation of a minute-resolution
timestamp to the start of its calendar day. -/
def dayStart (t : Ts) : Ts := 1440 * (t / 1440)

/-- A pandas `Series` over a fixed index: cells in index order, `none` = NaN. -/
abbrev Series (α : Type) := List (Ts × Option α)

/-- Label assignment `series[t] = v` when `t` is known to be in the index:
replace the cell at label `t`. -/
def setVal {α : Type} (l : Series α) (t : Ts) (v : Option α) : Series α :=
  l.map fun p => if p.1 = t then (t, v) else p

/-- Label assignment `series[t] = v`: `KeyError` (modelled as `none`) when the
label is not in the index, as raised by the pinned pandas `Series.__setitem__`. -/
def setAt {α : Type} (l : Series α) (t : Ts) (v : Option α) : Option (Series α) :=
  if t ∈ l.map Prod.fst then some (setVal l t v) else none

/-- `series.valid()`: the observed (non-NaN) sub-series, in index order. -/
def valid {α : Type} (l : Series α) : List (Ts × α) :=
  l.filterMap fun p => (p.2).map fun v => (p.1, v)

/-- `series[t]` as a read: `none` = `KeyError` (label not in the index),
`some none` = the cell holds NaN, `some (some v)` = the cell holds `v`. -/
def slookup {α : Type} (l : Series α) (t : Ts) : Option (Option α) :=
  (l.find? fun p => p.1 == t).map Prod.snd

/-- `calculate_period_returns`: `(1. + returns).prod() - 1` (line 311-313). -/
def calculate_period_returns (returns : List ℚ) : ℚ :=
  ((returns.map fun r => 1 + r).prod) - 1

/-- The `try: compound = math.log(1 + r) except ValueError: compound = 0.0`
block of `update_compounded_log_returns` (lines 296-301): `math.log` raises
`ValueError` exactly on non-positive arguments, i.e. when `1 + r ≤ 0`. -/
noncomputable def logCompound (r : ℚ) : ℝ :=
  if 0 < 1 + r then Real.log (1 + (r : ℝ)) else 0

/-- `update_compounded_log_returns` (lines 292-309), as a function of the data it
reads (`self.algorithm_returns`, the observed view, and the current
`self.compounded_log_returns` list) returning the new list.  The value read is
`algorithm_returns[algorithm_returns.last_valid_index()]`, i.e. the last
observed value. -/
noncomputable def update_compounded_log_returns
    (algorithm_returns : List (Ts × ℚ)) (compounded : List ℝ) : List ℝ :=
  match algorithm_returns.getLast? with
  | none => compounded
  | some p =>
    let compound := logCompound p.2
    match compounded.getLast? with
    | none => compounded ++ [compound]
    | some prev => compounded ++ [prev + compound]

/-- `update_current_max` (lines 315-319) as a function of the fields it reads;
`current_max` is `Option ℝ` with `none` modelling the initial `-np.inf`
(`-inf < x` holds for every float `x` appearing here). -/
noncomputable def update_current_max
    (compounded : List ℝ) (current_max : Option ℝ) : Option ℝ :=
  match compounded.getLast? with
  | none => current_max
  | some last =>
    match current_max with
    | none => some last
    | some m => if m < last then some last else some m

/-- `calculate_max_drawdown` (lines 321-332) as a function of the fields it
reads.  When `current_max` is still `-np.inf` (`none`) the Python computation
gives `cur_drawdown = 1.0 - exp(+inf) = -inf`, which never exceeds
`max_drawdown`; that branch therefore returns the old `max_drawdown`. -/
noncomputable def calculate_max_drawdown
    (compounded : List ℝ) (current_max : Option ℝ) (max_drawdown : ℝ) : ℝ :=
  match compounded.getLast? with
  | none => max_drawdown
  | some last =>
    match current_max with
    | none => max_drawdown
    | some m =>
      let cur := 1 - Real.exp (last - m)
      if max_drawdown < cur then cur else max_drawdown

/-- The float contents of a window of rational returns. -/
noncomputable def rlist (xs : List ℚ) : List ℝ :=
  xs.map fun x => ((x : ℚ) : ℝ)

/-- `np.std(daily_returns)` (line 371): numpy's default is `ddof=0`, the
population (biased) standard deviation `sqrt(mean((x - mean x)^2))`.
(The empty-window case, NaN in numpy, is outside every claim; division by the
zero length then yields `sqrt 0` here.) -/
noncomputable def np_std (xs : List ℚ) : ℝ :=
  Real.sqrt (((rlist xs).map fun x =>
      (x - (rlist xs).sum / (rlist xs).length) ^ 2).sum / (rlist xs).length)

/-- `calculate_volatility` (lines 370-371): `np.std(daily_returns) * math.sqrt(252)`. -/
noncomputable def calculate_volatility (daily_returns : List ℚ) : ℝ :=
  np_std daily_returns * Real.sqrt 252

/-- The entries of `np.cov(returns_matrix, ddof=1)` used in `calculate_beta`
(lines 387-391): `C[0][1] = Σ (xᵢ - x̄)(yᵢ - ȳ) / (N - 1)` and
`C[1][1] = sampleCov ys ys`, with `N` the common length of the two rows. -/
def sampleCov (xs ys : List ℚ) : ℚ :=
  (((xs.zip ys).map fun p =>
      (p.1 - xs.sum / xs.length) * (p.2 - ys.sum / ys.length)).sum)
    / ((xs.length : ℚ) - 1)

/-- `calculate_beta` (lines 373-394), as a function of the observed
`self.algorithm_returns` and `self.benchmark_returns` value windows. -/
def calculate_beta (algorithm_returns benchmark_returns : List ℚ) : ℚ :=
  if algorithm_returns.length < 2 then 0
  else sampleCov algorithm_returns benchmark_returns
        / sampleCov benchmark_returns benchmark_returns

/-- Modelled from the spec: `zipline.utils.math_utils.tolerant_equals` is not
under `src/`.  The spec describes it as a tolerance-based equality check
("within tolerance of zero", "not exact-zero comparison, to absorb
floating-point noise"); modelled as `|a - b| ≤ atol + rtol * |b|` with
`atol = rtol = 10⁻⁶`. -/
abbrev tolerant_equals (a b : ℝ) : Prop :=
  |a - b| ≤ 1 / 1000000 + (1 / 1000000) * |b|

/-- `sharpe_ratio` (lines 42-67): `np.nan` (modelled `none`) when the volatility
is tolerantly zero, otherwise `(annualized_return - treasury_return) /
algorithm_volatility`.  Total: it never raises. -/
noncomputable def sharpe_ratio
    (algorithm_volatility annualized_return treasury_return : ℝ) : Option ℝ :=
  if tolerant_equals algorithm_volatility 0 then none
  else some ((annualized_return - treasury_return) / algorithm_volatility)

/-- Modelled from the spec: `alpha` from `zipline.finance.risk.risk` is not
under `src/`.  Spec §4.5: alpha = periodReturn_algo − treasuryPeriodReturn −
beta × (periodReturn_bench − treasuryPeriodReturn). -/
def alphaFn (algorithm_period_return treasury_period_return
    benchmark_period_return beta : ℚ) : ℚ :=
  algorithm_period_return - treasury_period_return
    - beta * (benchmark_period_return - treasury_period_return)

/-- Modelled from the spec: `information_ratio` from `zipline.finance.risk.risk`
is not under `src/`.  Spec §4.5: ratio of mean(strategy − benchmark) to the
standard deviation of (strategy − benchmark) over the observed window. -/
noncomputable def informationRatio (algo bench : List ℚ) : ℝ :=
  let d := (algo.zip bench).map fun p => p.1 - p.2
  ((d.sum / d.length : ℚ) : ℝ) / np_std d

/-- Modelled from the spec: `sortino_ratio` from `zipline.finance.risk.risk` is
not under `src/`.  Spec §4.5: a downside-deviation-based ratio using the
observed strategy returns, the latest period return and the
minimum-acceptable-return threshold `mar`. -/
noncomputable def sortinoRatio (rets : List ℚ) (period_return mar : ℚ) : ℝ :=
  ((period_return - mar : ℚ) : ℝ)
    / Real.sqrt ((rets.map fun r =>
        if r < mar then (((r - mar : ℚ) : ℝ)) ^ 2 else 0).sum / rets.length)

/- Spec-side definitions, written from the claims' words, for comparison with
the definitions above (refinement checks). -/

/-- Claim-side (C1, as stated): the sample (ddof=1, unbiased) standard
deviation of the window. -/
noncomputable def spec_sample_std (xs : List ℚ) : ℝ :=
  Real.sqrt (((rlist xs).map fun x =>
      (x - (rlist xs).sum / (rlist xs).length) ^ 2).sum
    / ((rlist xs).length - 1))

/-- Claim-side (C1, amended): the population (ddof=0) standard deviation,
written in moment form `sqrt((n·Σx² − (Σx)²)/n²)` (a genuinely different
expression from the centered form used by `np_std`). -/
noncomputable def spec_population_std (xs : List ℚ) : ℝ :=
  Real.sqrt ((((rlist xs).length : ℝ) * ((rlist xs).map fun x => x ^ 2).sum
      - (rlist xs).sum ^ 2) / ((rlist xs).length : ℝ) ^ 2)

/-- Claim-side (C4): the sample covariance (ddof=1), written in moment form
`(n·Σxy − Σx·Σy)/(n(n−1))`. -/
def spec_sample_cov (xs ys : List ℚ) : ℚ :=
  ((xs.length : ℚ) * ((xs.zip ys).map fun p => p.1 * p.2).sum - xs.sum * ys.sum)
    / ((xs.length : ℚ) * ((xs.length : ℚ) - 1))

/- The stateful aggregator. -/

/-- The errors `update` can raise.  `keyError` models a pandas `KeyError` from
label assignment/lookup on a label outside the fixed index; `mismatch` the
`Exception` of lines 188-197; `indexError` the `IndexError` from
`algorithm_returns.index[-1]` on an empty observed index (line 208);
`treasuryKeyError` a `KeyError` reading `daily_treasury[treasury_end]` when
`treasury_end` is not a tracked trading day (line 210). -/
inductive UpdErr where
  | keyError
  | mismatch
  | indexError
  | treasuryKeyError
  deriving DecidableEq

/-- The mutable state of a `RiskMetricsCumulative` instance (lines 83-148).
`treasury_curves` is the external treasury-curve source composed with the
module's `choose_treasury` partial application (fixed 10-year maturity,
`compound=False`), modelled from the spec as an oracle from
(`start_date`, last observed timestamp) to the period return, since
`zipline.finance.risk.risk.choose_treasury` is not under `src/`.
`treasuryQueries` is ghost instrumentation counting oracle queries (mirroring
the call-count instrumentation the spec mentions); no other field reads it. -/
structure RiskState where
  treasury_curves : Ts → Ts → ℚ
  treasuryQueries : Nat
  start_date : Ts
  end_date : Ts
  trading_days : List Ts
  algorithm_returns_cont : Series ℚ
  benchmark_returns_cont : Series ℚ
  annualized_mean_returns_cont : Series ℚ
  algorithm_returns : Option (List (Ts × ℚ))
  benchmark_returns : Option (List (Ts × ℚ))
  annualized_mean_returns : Option (List (Ts × ℚ))
  compounded_log_returns : List ℝ
  algorithm_volatility : List ℝ
  benchmark_volatility : List ℝ
  algorithm_period_returns : List ℚ
  benchmark_period_returns : List ℚ
  latest_dt : Ts
  metrics_beta : Series ℚ
  metrics_alpha : Series ℚ
  metrics_sharpe : Series ℝ
  sortino : List ℝ
  information : List ℝ
  max_drawdown : ℝ
  current_max : Option ℝ
  excess_returns : List ℚ
  daily_treasury : Series ℚ
  treasury_period_returns : List ℚ
  treasury_period_return : Option ℚ
  num_trading_days : Nat

/-- `__init__` (lines 83-148), parametrized by the externally supplied
calendar data: the (normalized) period start and end, the masked trading days,
and the continuous index chosen from the returns frequency.  All per-update
series start empty, `max_drawdown = 0`, `current_max = -np.inf` (`none`), the
daily treasury cache is all-NaN over the trading days, and
`latest_dt = cont_index[0]`.  (`self.algorithm_returns` etc. start as Python
`None`; `num_trading_days` and `treasury_period_return` are unset before the
first update, modelled as `0` and `none`.) -/
def initState (treasury_curves : Ts → Ts → ℚ) (start_date end_date : Ts)
    (trading_days : List Ts) (cont_index : List Ts) : RiskState where
  treasury_curves := treasury_curves
  treasuryQueries := 0
  start_date := start_date
  end_date := end_date
  trading_days := trading_days
  algorithm_returns_cont := cont_index.map fun t => (t, none)
  benchmark_returns_cont := cont_index.map fun t => (t, none)
  annualized_mean_returns_cont := cont_index.map fun t => (t, none)
  algorithm_returns := none
  benchmark_returns := none
  annualized_mean_returns := none
  compounded_log_returns := []
  algorithm_volatility := []
  benchmark_volatility := []
  algorithm_period_returns := []
  benchmark_period_returns := []
  latest_dt := cont_index.headI
  metrics_beta := cont_index.map fun t => (t, none)
  metrics_alpha := cont_index.map fun t => (t, none)
  metrics_sharpe := cont_index.map fun t => (t, none)
  sortino := []
  information := []
  max_drawdown := 0
  current_max := none
  excess_returns := []
  daily_treasury := trading_days.map fun t => (t, none)
  treasury_period_returns := []
  treasury_period_return := none
  num_trading_days := 0

/-- `update` (lines 161-232).  Returns the state after the call together with
`none` on success or `some e` when the Python code raises `e`; the returned
state holds exactly the mutations executed before the raise point.  The inputs
are `Option ℚ` so that a NaN return (a missing observation) can be passed, as
Python allows.  Mutation order follows the source: write the three continuous
series, update the compounded log returns, append both period returns, check
the observed index sets, update the running max, append both volatilities,
resolve the treasury period return through the per-day cache, append excess
return, write the beta/alpha/sharpe metrics row, append sortino and
information, recompute the max drawdown, and advance `latest_dt`. -/
noncomputable def update (s : RiskState) (dt : Ts)
    (algorithm_returns benchmark_returns : Option ℚ) :
    RiskState × Option UpdErr :=
  match setAt s.algorithm_returns_cont dt algorithm_returns with
  | none => (s, some .keyError)
  | some acont =>
    let aobs := valid acont
    let s1 := { s with algorithm_returns_cont := acont,
                       algorithm_returns := some aobs }
    let mean_return : Option ℚ :=
      if aobs.length = 0 then none
      else some (((aobs.map Prod.snd).sum) / (aobs.length : ℚ))
    match setAt s1.annualized_mean_returns_cont dt
        (mean_return.map fun m => m * 252) with
    | none => (s1, some .keyError)
    | some amcont =>
      let s2 := { s1 with annualized_mean_returns_cont := amcont,
                          annualized_mean_returns := some (valid amcont) }
      match setAt s2.benchmark_returns_cont dt benchmark_returns with
      | none => (s2, some .keyError)
      | some bcont =>
        let bobs := valid bcont
        let s3 := { s2 with benchmark_returns_cont := bcont,
                            benchmark_returns := some bobs,
                            num_trading_days := aobs.length }
        let avals := aobs.map Prod.snd
        let bvals := bobs.map Prod.snd
        let compounded := update_compounded_log_returns aobs
          s.compounded_log_returns
        let s4 := { s3 with compounded_log_returns := compounded }
        let aPeriod := calculate_period_returns avals
        let bPeriod := calculate_period_returns bvals
        let s5 := { s4 with
          algorithm_period_returns := s4.algorithm_period_returns ++ [aPeriod],
          benchmark_period_returns := s4.benchmark_period_returns ++ [bPeriod] }
        if aobs.map Prod.fst = bobs.map Prod.fst then
          let cm := update_current_max compounded s.current_max
          let s6 := { s5 with current_max := cm }
          let s7 := { s6 with
            benchmark_volatility :=
              s6.benchmark_volatility ++ [calculate_volatility bvals],
            algorithm_volatility :=
              s6.algorithm_volatility ++ [calculate_volatility avals] }
          match aobs.getLast? with
          | none => (s7, some .indexError)
          | some lastEntry =>
            let treasury_end := dayStart lastEntry.1
            match slookup s7.daily_treasury treasury_end with
            | none => (s7, some .treasuryKeyError)
            | some cachedCell =>
              let tq : ℚ × Series ℚ × Nat :=
                match cachedCell with
                | some cachedVal =>
                  (cachedVal, s7.daily_treasury, s7.treasuryQueries)
                | none =>
                  let tr := s.treasury_curves s.start_date lastEntry.1
                  (tr, setVal s7.daily_treasury treasury_end (some tr),
                    s7.treasuryQueries + 1)
              let s8 := { s7 with
                daily_treasury := tq.2.1,
                treasuryQueries := tq.2.2,
                treasury_period_return := some tq.1,
                treasury_period_returns := s7.treasury_period_returns ++ [tq.1],
                excess_returns := s7.excess_returns ++ [aPeriod - tq.1] }
              let betaV := calculate_beta avals bvals
              match setAt s8.metrics_beta dt (some betaV) with
              | none => (s8, some .keyError)
              | some mbeta =>
                let s9 := { s8 with metrics_beta := mbeta }
                let alphaV := alphaFn aPeriod tq.1 bPeriod betaV
                match setAt s9.metrics_alpha dt (some alphaV) with
                | none => (s9, some .keyError)
                | some malpha =>
                  let s10 := { s9 with metrics_alpha := malpha }
                  let sharpeV := sharpe_ratio (calculate_volatility avals)
                    ((((valid amcont).map Prod.snd).getLast?.getD 0 : ℚ) : ℝ)
                    ((((valid tq.2.1).map Prod.snd).getLast?.getD 0 : ℚ) : ℝ)
                  match setAt s10.metrics_sharpe dt sharpeV with
                  | none => (s10, some .keyError)
                  | some msharpe =>
                    let s11 := { s10 with metrics_sharpe := msharpe }
                    let s12 := { s11 with
                      sortino := s11.sortino ++ [sortinoRatio avals aPeriod tq.1],
                      information :=
                        s11.information ++ [informationRatio avals bvals],
                      max_drawdown :=
                        calculate_max_drawdown compounded cm s.max_drawdown,
                      latest_dt := dt }
                    (s12, none)
        else (s5, some .mismatch)

/-- Drive a sequence of `update` calls, stopping at the first raised error
(a fatal error aborts the run). -/
noncomputable def runUpdates (s : RiskState)
    (us : List (Ts × Option ℚ × Option ℚ)) : RiskState × Option UpdErr :=
  match us with
  | [] => (s, none)
  | u :: rest =>
    match update s u.1 u.2.1 u.2.2 with
    | (s', none) => runUpdates s' rest
    | (s', some e) => (s', some e)

/-- The lengths of the nine per-update series, in the order: algorithm period
returns, benchmark period returns, algorithm volatility, benchmark volatility,
treasury period returns, excess returns, sortino, information, compounded log
returns. -/
def seriesLengths (s : RiskState) : List Nat :=
  [s.algorithm_period_returns.length, s.benchmark_period_returns.length,
   s.algorithm_volatility.length, s.benchmark_volatility.length,
   s.treasury_period_returns.length, s.excess_returns.length,
   s.sortino.length, s.information.length, s.compounded_log_returns.length]

/- `__repr__` (lines 262-290). -/

/-- The kinds of attribute values `__repr__` can read off the instance. -/
inductive AttrValue where
  | listQ (l : List ℚ)
  | listR (l : List ℝ)
  | num (x : ℝ)
  | index (l : List Ts)
  | series (l : List (Ts × ℚ))
  | noneV

/-- Python `getattr(self, name)` restricted to the attribute names `__repr__`
reads (line 282).  `"sharpe"`, `"beta"` and `"alpha"` are *not* attributes of
`RiskMetricsCumulative`: those metrics live only as columns of the
`self.metrics` DataFrame (`self.metrics.sharpe`, ...), so `getattr` raises
`AttributeError` (`none`) for them.  `trading_days` is a `DatetimeIndex`, not
a list; `algorithm_returns`/`benchmark_returns` are `None` before the first
update and Series afterwards. -/
def getattr (s : RiskState) : String → Option AttrValue
  | "algorithm_period_returns" => some (.listQ s.algorithm_period_returns)
  | "benchmark_period_returns" => some (.listQ s.benchmark_period_returns)
  | "excess_returns" => some (.listQ s.excess_returns)
  | "trading_days" => some (.index s.trading_days)
  | "benchmark_volatility" => some (.listR s.benchmark_volatility)
  | "algorithm_volatility" => some (.listR s.algorithm_volatility)
  | "sortino" => some (.listR s.sortino)
  | "information" => some (.listR s.information)
  | "max_drawdown" => some (.num s.max_drawdown)
  | "algorithm_returns" =>
    match s.algorithm_returns with
    | none => some .noneV
    | some l => some (.series l)
  | "benchmark_returns" =>
    match s.benchmark_returns with
    | none => some .noneV
    | some l => some (.series l)
  | _ => none

/-- The `metrics` name list of `__repr__` (lines 264-279), in source order. -/
def reprMetrics : List String :=
  ["algorithm_period_returns", "benchmark_period_returns", "excess_returns",
   "trading_days", "benchmark_volatility", "algorithm_volatility", "sharpe",
   "sortino", "information", "beta", "alpha", "max_drawdown",
   "algorithm_returns", "benchmark_returns"]

/-- The value formatting of one `__repr__` line: a Python `list` is replaced by
its last element (or `np.nan`, printed `nan`, when empty); any other value is
formatted whole.  The renderings of floats, indexes and Series are abstracted
as parameters. -/
def formatAttr (fmtQ : ℚ → String) (fmtR : ℝ → String)
    (fmtIdx : List Ts → String) (fmtSer : List (Ts × ℚ) → String) :
    AttrValue → String
  | .listQ l =>
    match l.getLast? with
    | none => "nan"
    | some x => fmtQ x
  | .listR l =>
    match l.getLast? with
    | none => "nan"
    | some x => fmtR x
  | .num x => fmtR x
  | .index l => fmtIdx l
  | .series l => fmtSer l
  | .noneV => "None"

/-- `__repr__` (lines 262-290): one `name:value` line per entry of
`reprMetrics`, joined with newlines; `Except.error name` models the
`AttributeError` raised by `getattr` on a missing attribute. -/
def riskRepr (fmtQ : ℚ → String) (fmtR : ℝ → String)
    (fmtIdx : List Ts → String) (fmtSer : List (Ts × ℚ) → String)
    (s : RiskState) : Except String String := do
  let statements ← reprMetrics.mapM fun m =>
    match getattr s m with
    | none => Except.error m
    | some v =>
      Except.ok (m ++ ":" ++ formatAttr fmtQ fmtR fmtIdx fmtSer v)
  return String.intercalate "\n" statements

/-- A concrete mid-run state exercising the treasury cache: a two-minute grid
on one trading day, the first minute already observed, and the day's treasury
period return already cached. -/
def cachedState : RiskState where
  treasury_curves := fun _ _ => 0
  treasuryQueries := 7
  start_date := 0
  end_date := 0
  trading_days := [0]
  algorithm_returns_cont := [(0, some 1), (1, none)]
  benchmark_returns_cont := [(0, some 1), (1, none)]
  annualized_mean_returns_cont := [(0, some 252), (1, none)]
  algorithm_returns := some [(0, 1)]
  benchmark_returns := some [(0, 1)]
  annualized_mean_returns := some [(0, 252)]
  compounded_log_returns := [0]
  algorithm_volatility := [0]
  benchmark_volatility := [0]
  algorithm_period_returns := [1]
  benchmark_period_returns := [1]
  latest_dt := 0
  metrics_beta := [(0, some 0), (1, none)]
  metrics_alpha := [(0, some 0), (1, none)]
  metrics_sharpe := [(0, none), (1, none)]
  sortino := [0]
  information := [0]
  max_drawdown := 0
  current_max := some 0
  excess_returns := [1]
  daily_treasury := [(0, some 3)]
  treasury_period_returns := [3]
  treasury_period_return := some 3
  num_trading_days := 1

/- Helper lemmas. -/

theorem setAt_of_mem {α : Type} (l : Series α) (t : Ts) (v : Option α)
    (h : t ∈ l.map Prod.fst) : setAt l t v = some (setVal l t v) := by
  unfold setAt
  rw [if_pos h]

theorem setVal_of_not_mem {α : Type} (l : Series α) (t : Ts) (v : Option α)
    (h : t ∉ l.map Prod.fst) : setVal l t v = l := by
  induction l with
  | nil => rfl
  | cons p rest ih =>
    simp only [List.map_cons, List.mem_cons, not_or] at h
    simp only [setVal, List.map_cons]
    rw [if_neg fun he => h.1 he.symm]
    have := ih h.2
    simp only [setVal] at this
    rw [this]

theorem valid_all_none {α : Type} (l : Series α)
    (h : ∀ p ∈ l, p.2 = none) : valid l = [] := by
  induction l with
  | nil => rfl
  | cons p rest ih =>
    have hp : p.2 = none := h p (List.mem_cons_self p rest)
    have ht := ih fun q hq => h q (List.mem_cons_of_mem p hq)
    simp only [valid, List.filterMap_cons, hp, Option.map_none'] at *
    exact ht

theorem getLast?_cons_of_getLast?_some {α : Type} (a : α) {l : List α} {x : α}
    (h : l.getLast? = some x) : (a :: l).getLast? = some x := by
  cases l with
  | nil => simp at h
  | cons b m => rw [List.getLast?_cons_cons]; exact h

theorem valid_setVal_getLast {α : Type} (dt : Ts) (v : α) :
    ∀ l : Series α,
    (l.map Prod.fst).Pairwise (· < ·) →
    (∀ p ∈ l, p.2.isSome = true → p.1 ≤ dt) →
    dt ∈ l.map Prod.fst →
    (valid (setVal l dt (some v))).getLast? = some (dt, v) := by
  intro l
  induction l with
  | nil =>
    intro _ _ hmem
    simp at hmem
  | cons p rest ih =>
    intro hpw hle hmem
    by_cases hp : p.1 = dt
    · have hgt : ∀ k ∈ rest.map Prod.fst, dt < k := by
        rw [List.map_cons, List.pairwise_cons] at hpw
        intro k hk
        have := hpw.1 k hk
        rwa [hp] at this
      have hnm : dt ∉ rest.map Prod.fst := fun hin => lt_irrefl dt (hgt dt hin)
      have hnone : ∀ q ∈ rest, q.2 = none := by
        intro q hq
        cases hqq : q.2 with
        | none => rfl
        | some w =>
          have hs : q.2.isSome = true := by rw [hqq]; rfl
          have hle' := hle q (List.mem_cons_of_mem p hq) hs
          have hgt' := hgt q.1 (List.mem_map_of_mem Prod.fst hq)
          exact absurd hle' (not_le.mpr hgt')
      simp only [setVal, List.map_cons, if_pos hp]
      have hrest : List.map (fun q => if q.1 = dt then (dt, some v) else q) rest
          = rest := by
        have := setVal_of_not_mem rest dt (some v) hnm
        simpa only [setVal] using this
      rw [hrest]
      simp only [valid, List.filterMap_cons, Option.map_some']
      have : List.filterMap (fun q => Option.map (fun w => (q.1, w)) q.2) rest
          = [] := by
        have := valid_all_none rest hnone
        simpa only [valid] using this
      rw [this]
      simp
    · have hmem' : dt ∈ rest.map Prod.fst := by
        rcases List.mem_cons.mp (by simpa only [List.map_cons] using hmem) with h1 | h2
        · exact absurd h1.symm hp
        · exact h2
      have hpw' : (rest.map Prod.fst).Pairwise (· < ·) := by
        rw [List.map_cons, List.pairwise_cons] at hpw
        exact hpw.2
      have hle' : ∀ q ∈ rest, q.2.isSome = true → q.1 ≤ dt :=
        fun q hq => hle q (List.mem_cons_of_mem p hq)
      have htail := ih hpw' hle' hmem'
      simp only [setVal, List.map_cons]
      rw [if_neg hp]
      simp only [valid, List.filterMap_cons]
      cases hp2 : p.2 with
      | none =>
        simp only [Option.map_none']
        simpa only [valid, setVal] using htail
      | some w =>
        simp only [Option.map_some']
        exact getLast?_cons_of_getLast?_some _
          (by simpa only [valid, setVal] using htail)

theorem ucl_length (l : List (Ts × ℚ)) (c : List ℝ) :
    (update_compounded_log_returns l c).length
      = if l.getLast? = none then c.length else c.length + 1 := by
  unfold update_compounded_log_returns
  cases hl : l.getLast? with
  | none => simp
  | some p =>
    cases hc : c.getLast? <;> simp

theorem ucl_fallback (l : List (Ts × ℚ)) (c : List ℝ) (dt : Ts) (r : ℚ)
    (hl : l.getLast? = some (dt, r)) (hr : r ≤ -1) :
    update_compounded_log_returns l c = c ++ [c.getLast?.getD 0] := by
  unfold update_compounded_log_returns
  rw [hl]
  have h0 : logCompound r = 0 := by
    unfold logCompound
    rw [if_neg]
    intro h
    linarith
  dsimp only
  rw [h0]
  cases hc : c.getLast? with
  | none => simp
  | some prev => simp

theorem sum_sq_sub {α : Type} [CommRing α] (l : List α) (c : α) :
    (l.map fun x => (x - c) ^ 2).sum
      = (l.map fun x => x ^ 2).sum - 2 * c * l.sum + l.length * c ^ 2 := by
  induction l with
  | nil => simp
  | cons a t ih =>
    simp only [List.map_cons, List.sum_cons, ih, List.length_cons, Nat.cast_add,
      Nat.cast_one]
    ring

theorem sum_sub_mul {α : Type} [CommRing α] (l : List (α × α)) (a b : α) :
    (l.map fun p => (p.1 - a) * (p.2 - b)).sum
      = (l.map fun p => p.1 * p.2).sum - a * (l.map Prod.snd).sum
        - b * (l.map Prod.fst).sum + l.length * (a * b) := by
  induction l with
  | nil => simp
  | cons p t ih =>
    simp only [List.map_cons, List.sum_cons, ih, List.length_cons, Nat.cast_add,
      Nat.cast_one]
    ring

theorem sampleCov_eq_spec (xs ys : List ℚ) (hlen : xs.length = ys.length)
    (h2 : 2 ≤ xs.length) : sampleCov xs ys = spec_sample_cov xs ys := by
  have hfst : (xs.zip ys).map Prod.fst = xs :=
    List.map_fst_zip xs ys (le_of_eq hlen)
  have hsnd : (xs.zip ys).map Prod.snd = ys :=
    List.map_snd_zip xs ys (le_of_eq hlen.symm)
  have hn : (xs.length : ℚ) ≠ 0 := by
    have : (0 : ℚ) < xs.length := by exact_mod_cast lt_of_lt_of_le (by norm_num) h2
    exact ne_of_gt this
  have hn1 : (xs.length : ℚ) - 1 ≠ 0 := by
    have h2' : (2 : ℚ) ≤ xs.length := by exact_mod_cast h2
    intro h
    rw [sub_eq_zero] at h
    rw [h] at h2'
    norm_num at h2'
  unfold sampleCov spec_sample_cov
  rw [sum_sub_mul, hfst, hsnd, List.length_zip, hlen, min_self, ← hlen]
  field_simp
  ring

theorem np_std_eq_population_moment (xs : List ℚ) (hx : xs ≠ []) :
    np_std xs = spec_population_std xs := by
  have hn : (((rlist xs).length : ℝ)) ≠ 0 := by
    unfold rlist
    rw [List.length_map]
    exact_mod_cast (List.length_pos.mpr hx).ne'
  unfold np_std spec_population_std
  congr 1
  rw [sum_sq_sub]
  field_simp
  ring

/- Claim theorems. -/

/-- C1 (amended): for every non-empty observed window, `calculate_volatility`
returns the population (ddof=0) standard deviation of the window multiplied by
`sqrt 252` (the annualization factor is hardcoded to the daily
periods-per-year). -/
theorem claim1_volatility_population_std : ∀ xs : List ℚ, xs ≠ [] →
    calculate_volatility xs = spec_population_std xs * Real.sqrt 252 := by
  intro xs hx
  unfold calculate_volatility
  rw [np_std_eq_population_moment xs hx]

/-- C1 witness: the amended statement applied at the concrete window `[0, 2]`. -/
theorem claim1_witness : ([0, 2] : List ℚ) ≠ [] ∧
    calculate_volatility [0, 2] = spec_population_std [0, 2] * Real.sqrt 252 :=
  ⟨by decide, claim1_volatility_population_std [0, 2] (by decide)⟩

/-- C1 counterexample: on the window `[0, 2]` the code's volatility (population
std, `= sqrt 252`) differs from the claimed sample (ddof=1) std annualization
(`= sqrt 2 * sqrt 252`). -/
theorem claim1_counterexample :
    calculate_volatility [0, 2] ≠ spec_sample_std [0, 2] * Real.sqrt 252 := by
  have hr : rlist [0, 2] = [(0 : ℝ), 2] := by
    simp [rlist]
  have hcode : calculate_volatility [0, 2] = Real.sqrt 252 := by
    unfold calculate_volatility np_std
    rw [hr]
    norm_num [Real.sqrt_one]
  have hspec : spec_sample_std [0, 2] = Real.sqrt 2 := by
    unfold spec_sample_std
    rw [hr]
    norm_num
  rw [hcode, hspec, ← Real.sqrt_mul (by norm_num : (0 : ℝ) ≤ 2)]
  intro h
  have hlt : Real.sqrt 252 < Real.sqrt (2 * 252) :=
    Real.sqrt_lt_sqrt (by norm_num) (by norm_num)
  rw [h] at hlt
  exact lt_irrefl _ hlt

/-- C4: with fewer than 2 observed pairs `calculate_beta` returns exactly 0
regardless of the values; with 2 or more (equal-length) observed windows it
returns the sample covariance (ddof=1) of the two windows divided by the sample
variance (ddof=1) of the benchmark window. -/
theorem claim4_beta : ∀ algo bench : List ℚ,
    (algo.length < 2 → calculate_beta algo bench = 0)
  ∧ (2 ≤ algo.length → algo.length = bench.length →
      calculate_beta algo bench
        = spec_sample_cov algo bench / spec_sample_cov bench bench) := by
  intro algo bench
  constructor
  · intro h
    simp [calculate_beta, h]
  · intro h2 hlen
    have hnot : ¬ algo.length < 2 := not_lt.mpr h2
    simp only [calculate_beta, if_neg hnot]
    rw [sampleCov_eq_spec algo bench hlen h2,
      sampleCov_eq_spec bench bench rfl (hlen ▸ h2)]

/-- C4 witness: both branches of the claim at concrete windows. -/
theorem claim4_witness :
    (calculate_beta [5] [7] = 0)
  ∧ (calculate_beta [0, 1] [0, 2]
      = spec_sample_cov [0, 1] [0, 2] / spec_sample_cov [0, 2] [0, 2]) :=
  ⟨(claim4_beta [5] [7]).1 (by decide),
   (claim4_beta [0, 1] [0, 2]).2 (by decide) (by decide)⟩

/-- C5: `sharpe_ratio` returns the NaN sentinel (`none`) exactly when the
volatility is within tolerance of zero; otherwise it returns
`(annualized_return − treasury_return) / volatility`; and the zero test is
tolerance-based, not exact-zero: the nonzero volatility `10⁻⁷` also yields the
sentinel.  The function is total (never raises). -/
theorem claim5_sharpe : ∀ v a t : ℝ,
    (sharpe_ratio v a t = none ↔ tolerant_equals v 0)
  ∧ (¬ tolerant_equals v 0 → sharpe_ratio v a t = some ((a - t) / v))
  ∧ (sharpe_ratio (1 / 10000000) a t = none ∧ (1 / 10000000 : ℝ) ≠ 0) := by
  intro v a t
  have htol : tolerant_equals (1 / 10000000) 0 := by
    unfold tolerant_equals
    rw [sub_zero, abs_zero, abs_of_nonneg (by norm_num : (0:ℝ) ≤ 1 / 10000000)]
    norm_num
  refine ⟨?_, ?_, ?_, by norm_num⟩
  · unfold sharpe_ratio
    split <;> simp_all
  · intro h
    unfold sharpe_ratio
    rw [if_neg h]
  · unfold sharpe_ratio
    rw [if_pos htol]

/-- C5 witness: at volatility 1 (not tolerantly zero) the ratio is defined and
equals `(2 − 0) / 1`. -/
theorem claim5_witness :
    ¬ tolerant_equals 1 0 ∧ sharpe_ratio 1 2 0 = some ((2 - 0) / 1) := by
  have h : ¬ tolerant_equals 1 0 := by
    unfold tolerant_equals
    rw [sub_zero, abs_zero, abs_of_nonneg (by norm_num : (0:ℝ) ≤ 1)]
    norm_num
  exact ⟨h, (claim5_sharpe 1 2 0).2.1 h⟩

theorem mdd_le (c : List ℝ) (cm : Option ℝ) (m : ℝ) :
    m ≤ calculate_max_drawdown c cm m := by
  unfold calculate_max_drawdown
  cases hc : c.getLast? with
  | none => exact le_refl m
  | some last =>
    cases cm with
    | none => exact le_refl m
    | some mx =>
      dsimp only
      split
      · exact le_of_lt (by assumption)
      · exact le_refl m

/-- C2: `max_drawdown` never decreases across an `update` call (whether or not
the call raises), and it is 0 at construction. -/
theorem claim2_max_drawdown_monotone :
    (∀ (s : RiskState) (dt : Ts) (a b : Option ℚ),
      s.max_drawdown ≤ (update s dt a b).1.max_drawdown)
  ∧ (∀ tc sd ed td ci, (initState tc sd ed td ci).max_drawdown = 0) := by
  constructor
  · intro s dt a b
    unfold update
    repeat' (first | split | dsimp only)
    all_goals first
      | exact le_refl _
      | exact mdd_le _ _ _
  · intro tc sd ed td ci
    rfl

/-- C8: an `update` at a timestamp outside the configured continuous index
raises (`KeyError` from the first label assignment, line 162) and leaves the
state completely unchanged: no value is recorded for `dt`. -/
theorem claim8_off_grid : ∀ (s : RiskState) (dt : Ts) (a b : Option ℚ),
    dt ∉ s.algorithm_returns_cont.map Prod.fst →
    update s dt a b = (s, some UpdErr.keyError) := by
  intro s dt a b h
  unfold update setAt
  rw [if_neg h]

/-- C8 witness: the off-grid timestamp 5 against a grid containing only 0. -/
theorem claim8_witness :
    5 ∉ (initState (fun _ _ => 0) 0 0 [0] [0]).algorithm_returns_cont.map Prod.fst
  ∧ update (initState (fun _ _ => 0) 0 0 [0] [0]) 5 (some 0) (some 0)
      = ((initState (fun _ _ => 0) 0 0 [0] [0]), some UpdErr.keyError) :=
  ⟨by decide, claim8_off_grid _ 5 _ _ (by decide)⟩

/-- C9 (the code as it is): `__repr__` never returns a string — for every
state it raises `AttributeError` at the metric name `"sharpe"`, because
`sharpe`, `beta` and `alpha` are only columns of the `metrics` DataFrame and
never attributes of the instance. -/
theorem claim9_repr_raises :
    ∀ (fmtQ : ℚ → String) (fmtR : ℝ → String) (fmtIdx : List Ts → String)
      (fmtSer : List (Ts × ℚ) → String) (s : RiskState),
    riskRepr fmtQ fmtR fmtIdx fmtSer s = Except.error "sharpe" := by
  intro fmtQ fmtR fmtIdx fmtSer s
  rfl

/-- C6 (amended): when `update` raises the fatal data-consistency
(index-mismatch) error, the two period-return series have already been
appended to exactly once by that call — the check (lines 185-197) runs *after*
the period-return appends (lines 180-183) — while the volatility and treasury
series, appended only after the check, are unchanged. -/
theorem claim6_mismatch_after_appends :
    ∀ (s : RiskState) (dt : Ts) (a b : Option ℚ),
    (update s dt a b).2 = some UpdErr.mismatch →
    (update s dt a b).1.algorithm_period_returns.length
        = s.algorithm_period_returns.length + 1
  ∧ (update s dt a b).1.benchmark_period_returns.length
        = s.benchmark_period_returns.length + 1
  ∧ (update s dt a b).1.algorithm_volatility = s.algorithm_volatility
  ∧ (update s dt a b).1.benchmark_volatility = s.benchmark_volatility
  ∧ (update s dt a b).1.treasury_period_returns = s.treasury_period_returns := by
  intro s dt a b
  unfold update
  repeat' (first | split | dsimp only)
  all_goals intro h
  all_goals simp_all

/-- C6 counterexample to the claim as stated: a concrete update that raises
the mismatch error (benchmark return NaN, so the observed index sets diverge)
in which the algorithm period-return series *has* been appended to by the
failing call. -/
theorem claim6_counterexample :
    (update (initState (fun _ _ => 0) 0 0 [0] [0]) 0 (some 0) none).2
        = some UpdErr.mismatch
  ∧ (update (initState (fun _ _ => 0) 0 0 [0] [0]) 0 (some 0) none).1.algorithm_period_returns.length
        = (initState (fun _ _ => 0) 0 0 [0] [0]).algorithm_period_returns.length
          + 1 :=
  ⟨rfl, rfl⟩

/-- C6 witness: the amended statement at the same concrete failing update. -/
theorem claim6_witness :
    (update (initState (fun _ _ => 0) 0 0 [0] [0]) 0 (some 0) none).1.algorithm_period_returns.length
        = (initState (fun _ _ => 0) 0 0 [0] [0]).algorithm_period_returns.length
          + 1
  ∧ (update (initState (fun _ _ => 0) 0 0 [0] [0]) 0 (some 0) none).1.benchmark_period_returns.length
        = (initState (fun _ _ => 0) 0 0 [0] [0]).benchmark_period_returns.length
          + 1
  ∧ (update (initState (fun _ _ => 0) 0 0 [0] [0]) 0 (some 0) none).1.algorithm_volatility
        = (initState (fun _ _ => 0) 0 0 [0] [0]).algorithm_volatility
  ∧ (update (initState (fun _ _ => 0) 0 0 [0] [0]) 0 (some 0) none).1.benchmark_volatility
        = (initState (fun _ _ => 0) 0 0 [0] [0]).benchmark_volatility
  ∧ (update (initState (fun _ _ => 0) 0 0 [0] [0]) 0 (some 0) none).1.treasury_period_returns
        = (initState (fun _ _ => 0) 0 0 [0] [0]).treasury_period_returns :=
  claim6_mismatch_after_appends (initState (fun _ _ => 0) 0 0 [0] [0]) 0
    (some 0) none rfl

/-- C7: an update whose strategy return satisfies `r ≤ −1` does not raise on
the log-compounding step: `math.log(1 + r)`'s `ValueError` is caught and the
fallback `compound = 0.0` is used, so the new compounded-log-return entry is
the previous entry plus `0.0` (`0.0` itself on the first update).  Stated for
any state whose continuous index is strictly increasing with all observations
at or before `dt`, `dt` on the grid (so `r` is the value the log step reads),
and the three continuous series sharing one index (as built by `__init__`). -/
theorem claim7_log_fallback :
    ∀ (s : RiskState) (dt : Ts) (r : ℚ) (b : Option ℚ),
    r ≤ -1 →
    (s.algorithm_returns_cont.map Prod.fst).Pairwise (· < ·) →
    (∀ p ∈ s.algorithm_returns_cont, p.2.isSome = true → p.1 ≤ dt) →
    dt ∈ s.algorithm_returns_cont.map Prod.fst →
    s.annualized_mean_returns_cont.map Prod.fst
        = s.algorithm_returns_cont.map Prod.fst →
    s.benchmark_returns_cont.map Prod.fst
        = s.algorithm_returns_cont.map Prod.fst →
    (update s dt (some r) b).1.compounded_log_returns
      = s.compounded_log_returns
        ++ [s.compounded_log_returns.getLast?.getD 0] := by
  intro s dt r b hr hpw hle hmem hidx1 hidx2
  have hl := valid_setVal_getLast dt r s.algorithm_returns_cont hpw hle hmem
  have hucl := ucl_fallback _ s.compounded_log_returns dt r hl hr
  unfold update
  rw [setAt_of_mem _ _ _ hmem]
  dsimp only
  rw [setAt_of_mem _ _ _ (by rw [hidx1]; exact hmem),
    setAt_of_mem _ _ _ (by rw [hidx2]; exact hmem)]
  dsimp only
  rw [hucl]
  repeat' (first | split | dsimp only)

/-- C7 witness: a single total-loss update (`r = −1`) from a fresh state on a
one-point grid appends the fallback entry. -/
theorem claim7_witness :
    (update (initState (fun _ _ => 0) 0 0 [0] [0]) 0 (some (-1)) (some 0)).1.compounded_log_returns
      = (initState (fun _ _ => 0) 0 0 [0] [0]).compounded_log_returns
        ++ [(initState (fun _ _ => 0) 0 0 [0] [0]).compounded_log_returns.getLast?.getD 0] :=
  claim7_log_fallback (initState (fun _ _ => 0) 0 0 [0] [0]) 0 (-1) (some 0)
    (by norm_num) (by decide) (by decide) (by decide) (by decide) (by decide)

/-- C3: an `update` whose timestamp's calendar day already holds a cached
(non-NaN) treasury period return does not query the treasury-curve source (the
ghost query counter is unchanged), leaves the cache unchanged, and, when the
call succeeds, appends the cached value to `treasury_period_returns`.  Stated
for any state whose continuous index is strictly increasing with all
observations at or before `dt` and `dt` on the grid (so `dt` is the last
observed timestamp after the write, as with chronological updates). -/
theorem claim3_treasury_cache_hit :
    ∀ (s : RiskState) (dt : Ts) (a : ℚ) (b : Option ℚ) (v : ℚ),
    (s.algorithm_returns_cont.map Prod.fst).Pairwise (· < ·) →
    (∀ p ∈ s.algorithm_returns_cont, p.2.isSome = true → p.1 ≤ dt) →
    dt ∈ s.algorithm_returns_cont.map Prod.fst →
    slookup s.daily_treasury (dayStart dt) = some (some v) →
    (update s dt (some a) b).1.treasuryQueries = s.treasuryQueries
  ∧ (update s dt (some a) b).1.daily_treasury = s.daily_treasury
  ∧ ((update s dt (some a) b).2 = none →
      (update s dt (some a) b).1.treasury_period_returns
        = s.treasury_period_returns ++ [v]) := by
  intro s dt a b v hpw hle hmem hcache
  have hl := valid_setVal_getLast dt a s.algorithm_returns_cont hpw hle hmem
  unfold update
  rw [setAt_of_mem _ _ _ hmem]
  dsimp only
  rw [hl]
  dsimp only
  rw [hcache]
  dsimp only
  repeat' (first | split | dsimp only)
  all_goals exact ⟨rfl, rfl, fun h => by first | rfl | simp at h⟩

/-- C3 witness: an update at minute 1 of a day whose treasury return is
already cached in `cachedState` reuses the cache: no query, cache unchanged,
cached value appended. -/
theorem claim3_witness :
    slookup cachedState.daily_treasury (dayStart 1) = some (some 3)
  ∧ (update cachedState 1 (some 2) (some 2)).1.treasuryQueries
      = cachedState.treasuryQueries
  ∧ (update cachedState 1 (some 2) (some 2)).1.daily_treasury
      = cachedState.daily_treasury
  ∧ (update cachedState 1 (some 2) (some 2)).2 = none
  ∧ (update cachedState 1 (some 2) (some 2)).1.treasury_period_returns
      = cachedState.treasury_period_returns ++ [3] := by
  have h := claim3_treasury_cache_hit cachedState 1 2 (some 2)
    3 (by decide) (by decide) (by decide) (by rfl)
  exact ⟨by rfl, h.1, h.2.1, rfl, h.2.2 rfl⟩

/-- C10 helper: a successful `update` grows each of the nine per-update series
by exactly one element. -/
theorem update_success_lengths :
    ∀ (s : RiskState) (dt : Ts) (a b : Option ℚ),
    (update s dt a b).2 = none →
    seriesLengths (update s dt a b).1 = (seriesLengths s).map (· + 1) := by
  intro s dt a b
  unfold update
  repeat' (first | split | dsimp only)
  all_goals intro h
  all_goals simp_all [seriesLengths, ucl_length]

/-- C10 helper: over a successful run, each per-update series grows by the
number of updates. -/
theorem runUpdates_lengths :
    ∀ (us : List (Ts × Option ℚ × Option ℚ)) (s : RiskState),
    (runUpdates s us).2 = none →
    seriesLengths (runUpdates s us).1
      = (seriesLengths s).map (· + us.length) := by
  intro us
  induction us with
  | nil =>
    intro s h
    simp [runUpdates]
  | cons u rest ih =>
    intro s h
    unfold runUpdates at h ⊢
    generalize hu : update s u.1 u.2.1 u.2.2 = res at h ⊢
    rcases res with ⟨s', e⟩
    cases e with
    | some e => simp at h
    | none =>
      have h1 := update_success_lengths s u.1 u.2.1 u.2.2 (by rw [hu])
      rw [hu] at h1
      dsimp only at h h1 ⊢
      rw [ih s' h, h1, List.map_map]
      simp only [List.length_cons]
      congr 1
      funext x
      simp only [Function.comp_apply]
      omega

/-- C10: every successful `update` grows each of the nine per-update series
(algorithm/benchmark period returns, algorithm/benchmark volatility, treasury
period returns, excess returns, sortino, information, compounded log returns)
by exactly one element, so after `n` successful updates from construction each
has length `n` — independent of how many *distinct* timestamps were updated. -/
theorem claim10_series_growth :
    (∀ (s : RiskState) (dt : Ts) (a b : Option ℚ),
      (update s dt a b).2 = none →
      seriesLengths (update s dt a b).1 = (seriesLengths s).map (· + 1))
  ∧ (∀ (tc : Ts → Ts → ℚ) (sd ed : Ts) (td ci : List Ts)
      (us : List (Ts × Option ℚ × Option ℚ)),
      (runUpdates (initState tc sd ed td ci) us).2 = none →
      seriesLengths (runUpdates (initState tc sd ed td ci) us).1
        = List.replicate 9 us.length) := by
  constructor
  · exact update_success_lengths
  · intro tc sd ed td ci us h
    rw [runUpdates_lengths us _ h]
    simp [initState, seriesLengths, List.replicate]

/-- C10 witness: two successful updates at the *same* timestamp 0 leave every
per-update series with length 2 while only one grid point is observed. -/
theorem claim10_witness :
    (runUpdates (initState (fun _ _ => 0) 0 0 [0] [0])
        [(0, some 1, some 2), (0, some 3, some 4)]).2
      = none
  ∧ seriesLengths (runUpdates (initState (fun _ _ => 0) 0 0 [0] [0])
        [(0, some 1, some 2), (0, some 3, some 4)]).1
      = List.replicate 9 2
  ∧ (valid (runUpdates (initState (fun _ _ => 0) 0 0 [0] [0])
        [(0, some 1, some 2), (0, some 3, some 4)]).1.algorithm_returns_cont).length
      = 1 :=
  ⟨rfl, claim10_series_growth.2 (fun _ _ => 0) 0 0 [0] [0]
      [(0, some 1, some 2), (0, some 3, some 4)] rfl,
    rfl⟩

end Zipline
